import Mathlib

/-!
Shallow embedding of `structuralcodes/codes/mc2010/_concrete_torsion.py`
(fib Model Code 2010, torsion clauses 7.3.4), over real-number semantics.

The module defines three functions: `v_ed_ti` (shear flow due to torsion,
eq. 7.3-53), `t_rd_max` (maximum torsional resistance, eq. 7.3-56) and
`t_rd` (torsion-shear interaction check).  The helpers `epsilon_x` and
`v_rd_max` live in a sibling module (`_concrete_shear`) that is out of
scope; they are treated as black-box numeric functions and passed in as
explicit function parameters.

In the Python source the `if/elif` chain selecting `k_epsilon` has no
`else` branch: for `approx_lvl_s` outside {1, 2, 3} the variable is left
unbound and an `UnboundLocalError` is raised at the point of use.  That
fallible behaviour is embedded with `Option`: `none` models the raised
error, `some r` a normal return of `r`.
-/

noncomputable section

open Real

/-- Type of the external `epsilon_x(E_s, As, Med, Ved, Ned, z, delta_e)`
helper from `_concrete_shear`. -/
abbrev EpsilonX : Type := ℝ → ℝ → ℝ → ℝ → ℝ → ℝ → ℝ → ℝ

/-- Type of the external
`v_rd_max(approx_lvl_s, fck, bw, theta, z, E_s, As, Med, Ved, Ned, delta_e, alfa, gamma_c)`
helper from `_concrete_shear`. -/
abbrev VRdMax : Type := ℤ → ℝ → ℝ → ℝ → ℝ → ℝ → ℝ → ℝ → ℝ → ℝ → ℝ → ℝ → ℝ → ℝ

/-- `v_ed_ti(t_ed, a_k, z_i)`: shear force due to torsion,
`t_ed * z_i / (2 * a_k)` (eq. 7.3-53). -/
def v_ed_ti (t_ed a_k z_i : ℝ) : ℝ :=
  t_ed * z_i / (2 * a_k)

/-- `t_ef = d_k / 8`, the effective wall thickness computed in `t_rd_max`. -/
def t_ef (d_k : ℝ) : ℝ := d_k / 8

/-- `nfc = min((30 / f_ck) ** (1 / 3), 1)`, the strength-reduction factor
computed in `t_rd_max`.  Python `**` with real operands is `Real.rpow`. -/
def nfc (f_ck : ℝ) : ℝ :=
  min ((30 / f_ck) ^ ((1 : ℝ) / 3)) 1

/-- The `if/elif` chain of `t_rd_max` selecting the strain-dependent
reduction factor `k_epsilon` from `approx_lvl_s`.  Levels 2 and 3 call the
external `epsilon_x`; level 3 first refines the angle to
`theta_min = 20 + 10000 * epsilon_x(...)` and uses it inside the cotangent
term only.  Any other level leaves `k_epsilon` unbound in the source,
modelled as `none`. -/
def k_epsilon_sel (epsilon_x : EpsilonX) (theta : ℝ) (approx_lvl_s : ℤ)
    (E_s As Med Ved Ned z delta_e : ℝ) : Option ℝ :=
  if approx_lvl_s = 1 then
    some 0.55
  else if approx_lvl_s = 2 then
    some (min (1 / (1.2 + 55 *
      (epsilon_x E_s As Med Ved Ned z delta_e +
        (epsilon_x E_s As Med Ved Ned z delta_e + 0.002) *
          (1 / Real.tan (theta * Real.pi / 180)) ^ 2))) 0.65)
  else if approx_lvl_s = 3 then
    some (min (1 / (1.2 + 55 *
      (epsilon_x E_s As Med Ved Ned z delta_e +
        (epsilon_x E_s As Med Ved Ned z delta_e + 0.002) *
          (1 / Real.tan
            ((20 + 10000 * epsilon_x E_s As Med Ved Ned z delta_e) *
              Real.pi / 180)) ^ 2))) 0.65)
  else
    none

/-- `t_rd_max(f_ck, gamma_c, d_k, a_k, theta, approx_lvl_s, E_s, As, Med,
Ved, Ned, z, delta_e)`: the maximum allowed torsion (eq. 7.3-56),
`k_c * f_ck * t_ef * 2 * a_k * sin(theta) * cos(theta) / gamma_c` with
`k_c = nfc * k_epsilon` and `theta` converted from degrees to radians.
`none` models the `UnboundLocalError` raised for an invalid
`approx_lvl_s`. -/
def t_rd_max (epsilon_x : EpsilonX) (f_ck gamma_c d_k a_k theta : ℝ)
    (approx_lvl_s : ℤ) (E_s As Med Ved Ned z delta_e : ℝ) : Option ℝ :=
  (k_epsilon_sel epsilon_x theta approx_lvl_s E_s As Med Ved Ned z
      delta_e).map
    (fun k_epsilon =>
      nfc f_ck * k_epsilon * f_ck * t_ef d_k * 2 * a_k *
        Real.sin (theta * Real.pi / 180) * Real.cos (theta * Real.pi / 180) /
        gamma_c)

/-- `t_rd(t_ed, approx_lvl_s, fck, bw, theta, z, E_s, As, Med, Ved, Ned,
delta_e, alfa, f_ck, d_k, a_k, gamma_c)`: the torsion-shear interaction
check, `(t_ed / t_rd_max(...))**2 + (Ved / v_rd_max(...))**2 <= 1`.
The external `v_rd_max` is a black-box parameter.  `none` models the
error propagated from `t_rd_max` for an invalid `approx_lvl_s`. -/
def t_rd (epsilon_x : EpsilonX) (v_rd_max : VRdMax) (t_ed : ℝ)
    (approx_lvl_s : ℤ)
    (fck bw theta z E_s As Med Ved Ned delta_e alfa f_ck d_k a_k gamma_c :
      ℝ) : Option Bool :=
  (t_rd_max epsilon_x f_ck gamma_c d_k a_k theta approx_lvl_s E_s As Med
      Ved Ned z delta_e).map
    (fun T =>
      decide ((t_ed / T) ^ 2 +
        (Ved / v_rd_max approx_lvl_s fck bw theta z E_s As Med Ved Ned
          delta_e alfa gamma_c) ^ 2 ≤ 1))

/-- A concrete stand-in for the external `epsilon_x`, returning strain 0
(used only to instantiate witnesses). -/
def epsilonXZero : EpsilonX := fun _ _ _ _ _ _ _ => 0

/-- A concrete stand-in for the external `v_rd_max`, returning capacity 1
(used only to instantiate witnesses). -/
def vRdMaxOne : VRdMax := fun _ _ _ _ _ _ _ _ _ _ _ _ _ => 1

/-- Unfolding lemma: at approximation level 1, `t_rd_max` returns the
payload with `k_epsilon = 0.55`. -/
theorem t_rd_max_level1_eval (epsilon_x : EpsilonX)
    (f_ck gamma_c d_k a_k theta E_s As Med Ved Ned z delta_e : ℝ) :
    t_rd_max epsilon_x f_ck gamma_c d_k a_k theta 1 E_s As Med Ved Ned z
        delta_e =
      some (nfc f_ck * 0.55 * f_ck * t_ef d_k * 2 * a_k *
        Real.sin (theta * Real.pi / 180) * Real.cos (theta * Real.pi / 180) /
        gamma_c) :=
  rfl

/-- `nfc 30 = 1`: at `f_ck = 30` the strength-reduction factor is exactly
the clamp value. -/
theorem nfc_thirty : nfc 30 = 1 := by
  norm_num [nfc, Real.one_rpow]

/-- `sin(45 deg) * cos(45 deg) = 1/2` with the degree-to-radian conversion
used in the source. -/
theorem sin45_mul_cos45 :
    Real.sin (45 * Real.pi / 180) * Real.cos (45 * Real.pi / 180) =
      1 / 2 := by
  have h : (45 : ℝ) * Real.pi / 180 = Real.pi / 4 := by ring
  rw [h, Real.sin_pi_div_four, Real.cos_pi_div_four, div_mul_div_comm,
    Real.mul_self_sqrt (by norm_num : (0 : ℝ) ≤ 2)]
  norm_num

/-- `sin(135 deg) * cos(135 deg) = -(1/2)` with the degree-to-radian
conversion used in the source. -/
theorem sin135_mul_cos135 :
    Real.sin (135 * Real.pi / 180) * Real.cos (135 * Real.pi / 180) =
      -(1 / 2) := by
  have h : (135 : ℝ) * Real.pi / 180 = Real.pi - Real.pi / 4 := by ring
  rw [h, Real.sin_pi_sub, Real.cos_pi_sub, Real.sin_pi_div_four,
    Real.cos_pi_div_four, mul_neg, div_mul_div_comm,
    Real.mul_self_sqrt (by norm_num : (0 : ℝ) ≤ 2)]
  norm_num

/-- The level-2/level-3 reduction factor is nonnegative whenever the
external `epsilon_x` returns a nonnegative strain (and level 1 gives the
positive constant 0.55). -/
theorem k_epsilon_sel_nonneg (epsilon_x : EpsilonX) (theta : ℝ)
    (approx_lvl_s : ℤ) (E_s As Med Ved Ned z delta_e : ℝ)
    (heps : 0 ≤ epsilon_x E_s As Med Ved Ned z delta_e) (k : ℝ)
    (hk : k_epsilon_sel epsilon_x theta approx_lvl_s E_s As Med Ved Ned z
      delta_e = some k) :
    0 ≤ k := by
  unfold k_epsilon_sel at hk
  set ex := epsilon_x E_s As Med Ved Ned z delta_e with hex
  split_ifs at hk <;>
    simp only [Option.some.injEq, reduceCtorEq] at hk
  · rw [← hk]; norm_num
  · rw [← hk]
    refine le_min ?_ (by norm_num)
    have hsq : (0 : ℝ) ≤ (1 / Real.tan (theta * Real.pi / 180)) ^ 2 :=
      sq_nonneg _
    have hmul : (0 : ℝ) ≤ (ex + 0.002) *
        (1 / Real.tan (theta * Real.pi / 180)) ^ 2 :=
      mul_nonneg (by linarith) hsq
    have hden : (0 : ℝ) < 1.2 + 55 *
        (ex + (ex + 0.002) * (1 / Real.tan (theta * Real.pi / 180)) ^ 2) :=
      by nlinarith
    exact (div_pos one_pos hden).le
  · rw [← hk]
    refine le_min ?_ (by norm_num)
    have hsq : (0 : ℝ) ≤
        (1 / Real.tan ((20 + 10000 * ex) * Real.pi / 180)) ^ 2 :=
      sq_nonneg _
    have hmul : (0 : ℝ) ≤ (ex + 0.002) *
        (1 / Real.tan ((20 + 10000 * ex) * Real.pi / 180)) ^ 2 :=
      mul_nonneg (by linarith) hsq
    have hden : (0 : ℝ) < 1.2 + 55 * (ex + (ex + 0.002) *
        (1 / Real.tan ((20 + 10000 * ex) * Real.pi / 180)) ^ 2) :=
      by nlinarith
    exact (div_pos one_pos hden).le

/-- C7: `v_ed_ti(t_ed, a_k, z_i)` equals `t_ed * z_i / (2 * a_k)` and is
linear in `t_ed`: doubling `t_ed` doubles the result. -/
theorem v_ed_ti_formula_and_linear (t_ed a_k z_i : ℝ) (ha : a_k ≠ 0)
    (ht : 0 < t_ed) (hz : 0 < z_i) (hak : 0 < a_k) :
    v_ed_ti t_ed a_k z_i = t_ed * z_i / (2 * a_k) ∧
      v_ed_ti (2 * t_ed) a_k z_i = 2 * v_ed_ti t_ed a_k z_i := by
  refine ⟨rfl, ?_⟩
  unfold v_ed_ti
  ring

/-- Witness for C7 at `t_ed = 1`, `a_k = 1`, `z_i = 1`. -/
theorem v_ed_ti_formula_and_linear_witness :
    v_ed_ti 1 1 1 = 1 * 1 / (2 * 1) ∧
      v_ed_ti (2 * 1) 1 1 = 2 * v_ed_ti 1 1 1 :=
  v_ed_ti_formula_and_linear 1 1 1 (by norm_num) (by norm_num)
    (by norm_num) (by norm_num)

/-- C2: at approximation level 1, `t_rd_max` equals the closed form
`min((30/f_ck)^(1/3), 1) * 0.55 * f_ck * (d_k/8) * 2 * a_k * sin(theta) *
cos(theta) / gamma_c` (theta in degrees, converted to radians), and the
result does not depend on `E_s, As, Med, Ved, Ned, z, delta_e`. -/
theorem t_rd_max_level1_closed_form (epsilon_x : EpsilonX)
    (f_ck gamma_c d_k a_k theta E_s As Med Ved Ned z delta_e
      E_s2 As2 Med2 Ved2 Ned2 z2 delta_e2 : ℝ) :
    t_rd_max epsilon_x f_ck gamma_c d_k a_k theta 1 E_s As Med Ved Ned z
        delta_e =
      some (min ((30 / f_ck) ^ ((1 : ℝ) / 3)) 1 * 0.55 * f_ck * (d_k / 8) *
        2 * a_k * Real.sin (theta * Real.pi / 180) *
        Real.cos (theta * Real.pi / 180) / gamma_c) ∧
      t_rd_max epsilon_x f_ck gamma_c d_k a_k theta 1 E_s As Med Ved Ned z
          delta_e =
        t_rd_max epsilon_x f_ck gamma_c d_k a_k theta 1 E_s2 As2 Med2 Ved2
          Ned2 z2 delta_e2 := by
  constructor <;> rfl

/-- C3: for any `approx_lvl_s` outside {1, 2, 3}, `t_rd_max` signals an
error (the Python source leaves `k_epsilon` unbound and raises) instead of
returning a numeric value. -/
theorem t_rd_max_invalid_level_errors (epsilon_x : EpsilonX)
    (f_ck gamma_c d_k a_k theta : ℝ) (approx_lvl_s : ℤ)
    (E_s As Med Ved Ned z delta_e : ℝ)
    (h1 : approx_lvl_s ≠ 1) (h2 : approx_lvl_s ≠ 2)
    (h3 : approx_lvl_s ≠ 3) :
    t_rd_max epsilon_x f_ck gamma_c d_k a_k theta approx_lvl_s E_s As Med
      Ved Ned z delta_e = none := by
  simp [t_rd_max, k_epsilon_sel, h1, h2, h3]

/-- Witness for C3 at `approx_lvl_s = 4`. -/
theorem t_rd_max_invalid_level_errors_witness :
    t_rd_max epsilonXZero 30 1.5 8 1 45 4 0 0 0 0 0 1 1 = none :=
  t_rd_max_invalid_level_errors epsilonXZero 30 1.5 8 1 45 4 0 0 0 0 0 1 1
    (by decide) (by decide) (by decide)

/-- C4: at approximation level 3 the refined angle
`theta_min = 20 + 10000 * epsilon_x(...)` appears only inside the
cotangent term of `epsilon_1`; the `sin` and `cos` factors of the result
use the original input `theta`. -/
theorem t_rd_max_level3_sin_cos_use_theta (epsilon_x : EpsilonX)
    (f_ck gamma_c d_k a_k theta E_s As Med Ved Ned z delta_e : ℝ) :
    t_rd_max epsilon_x f_ck gamma_c d_k a_k theta 3 E_s As Med Ved Ned z
        delta_e =
      some (min ((30 / f_ck) ^ ((1 : ℝ) / 3)) 1 *
        min (1 / (1.2 + 55 *
          (epsilon_x E_s As Med Ved Ned z delta_e +
            (epsilon_x E_s As Med Ved Ned z delta_e + 0.002) *
              (1 / Real.tan
                ((20 + 10000 * epsilon_x E_s As Med Ved Ned z delta_e) *
                  Real.pi / 180)) ^ 2))) 0.65 *
        f_ck * (d_k / 8) * 2 * a_k * Real.sin (theta * Real.pi / 180) *
        Real.cos (theta * Real.pi / 180) / gamma_c) := by
  rfl

/-- C5: at approximation levels 2 and 3 the selected reduction factor
`k_epsilon = min(1 / (1.2 + 55 * epsilon_1), 0.65)` never exceeds 0.65,
whatever the other inputs and whatever `epsilon_x` returns. -/
theorem k_epsilon_le_of_level23 (epsilon_x : EpsilonX) (theta : ℝ)
    (approx_lvl_s : ℤ) (E_s As Med Ved Ned z delta_e : ℝ)
    (hlvl : approx_lvl_s = 2 ∨ approx_lvl_s = 3) (k : ℝ)
    (hk : k_epsilon_sel epsilon_x theta approx_lvl_s E_s As Med Ved Ned z
      delta_e = some k) :
    k ≤ 0.65 := by
  rcases hlvl with h | h <;> subst h <;>
    simp only [k_epsilon_sel, Int.reduceEq, reduceIte,
      Option.some.injEq] at hk <;>
  · rw [← hk]
    exact min_le_right _ _

/-- Witness for C5 at level 2, `theta = 45`, zero strain. -/
theorem k_epsilon_le_of_level23_witness :
    min (1 / (1.2 + 55 *
      ((0 : ℝ) + (0 + 0.002) *
        (1 / Real.tan (45 * Real.pi / 180)) ^ 2))) 0.65 ≤ 0.65 :=
  k_epsilon_le_of_level23 epsilonXZero 45 2 0 0 0 0 0 1 1 (Or.inl rfl) _
    rfl

/-- C6: the factor `nfc = min((30/f_ck)^(1/3), 1)` never exceeds 1; for
`0 < f_ck < 30` the unclamped value `(30/f_ck)^(1/3)` exceeds 1 and is
clamped to 1; and the value returned by `t_rd_max` is always built from
the clamped `nfc`, never from the unclamped power. -/
theorem nfc_clamped_in_t_rd_max (f_ck : ℝ) (hpos : 0 < f_ck) :
    nfc f_ck ≤ 1 ∧
      (f_ck < 30 → 1 < (30 / f_ck) ^ ((1 : ℝ) / 3) ∧ nfc f_ck = 1) ∧
      (∀ (epsilon_x : EpsilonX)
        (gamma_c d_k a_k theta : ℝ) (approx_lvl_s : ℤ)
        (E_s As Med Ved Ned z delta_e k : ℝ),
        k_epsilon_sel epsilon_x theta approx_lvl_s E_s As Med Ved Ned z
            delta_e = some k →
        t_rd_max epsilon_x f_ck gamma_c d_k a_k theta approx_lvl_s E_s As
            Med Ved Ned z delta_e =
          some (nfc f_ck * k * f_ck * (d_k / 8) * 2 * a_k *
            Real.sin (theta * Real.pi / 180) *
            Real.cos (theta * Real.pi / 180) / gamma_c)) := by
  refine ⟨min_le_right _ _, fun h30 => ?_, ?_⟩
  · have hgt : 1 < 30 / f_ck := (one_lt_div hpos).mpr h30
    have hr : 1 < (30 / f_ck) ^ ((1 : ℝ) / 3) := by
      rw [Real.one_lt_rpow_iff_of_pos (by linarith)]
      left
      exact ⟨hgt, by norm_num⟩
    exact ⟨hr, min_eq_right hr.le⟩
  · intro epsilon_x gamma_c d_k a_k theta approx_lvl_s E_s As Med Ved Ned
      z delta_e k hk
    simp [t_rd_max, t_ef, hk]

/-- Witness for C6 at `f_ck = 20` (below 30) evaluated through the level-1
branch of `t_rd_max`. -/
theorem nfc_clamped_in_t_rd_max_witness :
    nfc 20 = 1 ∧
      t_rd_max epsilonXZero 20 1.5 8 1 45 1 0 0 0 0 0 1 1 =
        some (nfc 20 * 0.55 * 20 * (8 / 8) * 2 * 1 *
          Real.sin (45 * Real.pi / 180) * Real.cos (45 * Real.pi / 180) /
          1.5) :=
  ⟨(((nfc_clamped_in_t_rd_max 20 (by norm_num)).2.1) (by norm_num)).2,
    ((nfc_clamped_in_t_rd_max 20 (by norm_num)).2.2) epsilonXZero 1.5 8 1
      45 1 0 0 0 0 0 1 1 0.55 rfl⟩

/-- C9: with `f_ck = 30`, `gamma_c = 1.5`, `d_k = 400`, `a_k = 80000`,
`theta = 45`, `approx_lvl_s = 1` and arbitrary values of the remaining
parameters, `t_rd_max` returns exactly 44,000,000 Nmm under real-number
semantics (`t_ef = 50`, `nfc = 1`, `k_epsilon = 0.55`,
`sin(45 deg) * cos(45 deg) = 1/2`). -/
theorem t_rd_max_example_value (epsilon_x : EpsilonX)
    (E_s As Med Ved Ned z delta_e : ℝ) :
    t_rd_max epsilon_x 30 1.5 400 80000 45 1 E_s As Med Ved Ned z
      delta_e = some 44000000 := by
  rw [t_rd_max_level1_eval]
  have hpay : nfc 30 * 0.55 * 30 * t_ef 400 * 2 * 80000 *
      Real.sin (45 * Real.pi / 180) * Real.cos (45 * Real.pi / 180) / 1.5 =
      (44000000 : ℝ) := by
    rw [nfc_thirty, t_ef,
      mul_assoc (1 * 0.55 * 30 * (400 / 8) * 2 * 80000)
        (Real.sin (45 * Real.pi / 180)) (Real.cos (45 * Real.pi / 180)),
      sin45_mul_cos45]
    norm_num
  rw [hpay]

/-- C10: at approximation level 1, `t_rd_max` is invariant under
reflecting the compression-field angle about 45 degrees:
`t_rd_max(..., theta, ...) = t_rd_max(..., 90 - theta, ...)` because
`k_epsilon` is the constant 0.55 and
`sin(theta) * cos(theta) = sin(90 - theta) * cos(90 - theta)`. -/
theorem t_rd_max_level1_theta_reflection (epsilon_x : EpsilonX)
    (f_ck gamma_c d_k a_k theta E_s As Med Ved Ned z delta_e : ℝ) :
    t_rd_max epsilon_x f_ck gamma_c d_k a_k theta 1 E_s As Med Ved Ned z
        delta_e =
      t_rd_max epsilon_x f_ck gamma_c d_k a_k (90 - theta) 1 E_s As Med
        Ved Ned z delta_e := by
  rw [t_rd_max_level1_eval, t_rd_max_level1_eval, Option.some.injEq]
  have h : (90 - theta) * Real.pi / 180 =
      Real.pi / 2 - theta * Real.pi / 180 := by ring
  rw [h, Real.sin_pi_div_two_sub, Real.cos_pi_div_two_sub]
  ring

/-- C1: whenever `t_rd_max` returns a value `T` (valid approximation
level) and neither capacity is zero, `t_rd` returns `true` exactly when
`(t_ed / T)^2 + (Ved / v_rd_max(...))^2 <= 1`, the boundary value 1 being
accepted. -/
theorem t_rd_true_iff_interaction (epsilon_x : EpsilonX)
    (v_rd_max : VRdMax) (t_ed : ℝ) (approx_lvl_s : ℤ)
    (fck bw theta z E_s As Med Ved Ned delta_e alfa f_ck d_k a_k gamma_c :
      ℝ) (T : ℝ)
    (hT : t_rd_max epsilon_x f_ck gamma_c d_k a_k theta approx_lvl_s E_s
      As Med Ved Ned z delta_e = some T)
    (hT0 : T ≠ 0)
    (hV0 : v_rd_max approx_lvl_s fck bw theta z E_s As Med Ved Ned
      delta_e alfa gamma_c ≠ 0) :
    t_rd epsilon_x v_rd_max t_ed approx_lvl_s fck bw theta z E_s As Med
        Ved Ned delta_e alfa f_ck d_k a_k gamma_c = some true ↔
      (t_ed / T) ^ 2 +
        (Ved / v_rd_max approx_lvl_s fck bw theta z E_s As Med Ved Ned
          delta_e alfa gamma_c) ^ 2 ≤ 1 := by
  rw [t_rd, hT]
  simp [decide_eq_true_iff]

/-- Witness for C1 at the concrete level-1 scenario of the spec
(`t_ed = 5e6`, capacity 44,000,000, zero shear demand). -/
theorem t_rd_true_iff_interaction_witness :
    t_rd epsilonXZero vRdMaxOne 5000000 1 30 200 45 1 0 0 0 0 0 0 45 30
      400 80000 1.5 = some true := by
  have hT : t_rd_max epsilonXZero 30 1.5 400 80000 45 1 0 0 0 0 0 1 0 =
      some 44000000 := by
    rw [t_rd_max_level1_eval]
    have hpay : nfc 30 * 0.55 * 30 * t_ef 400 * 2 * 80000 *
        Real.sin (45 * Real.pi / 180) * Real.cos (45 * Real.pi / 180) /
        1.5 = (44000000 : ℝ) := by
      rw [nfc_thirty, t_ef,
        mul_assoc (1 * 0.55 * 30 * (400 / 8) * 2 * 80000)
          (Real.sin (45 * Real.pi / 180)) (Real.cos (45 * Real.pi / 180)),
        sin45_mul_cos45]
      norm_num
    rw [hpay]
  have h := t_rd_true_iff_interaction epsilonXZero vRdMaxOne 5000000 1 30
    200 45 1 0 0 0 0 0 0 45 30 400 80000 1.5 44000000 hT (by norm_num)
    (by norm_num [vRdMaxOne])
  exact h.mpr (by norm_num [vRdMaxOne])

/-- Counterexample to C8 as stated: at `theta = 135` degrees (level 1,
`f_ck = 30`, `gamma_c = 1.5`, `d_k = 8`) the coefficient multiplying
`a_k` is negative, so `a_k = 0 <= 1` yet the returned torsional capacity
drops from 0 to -11: `t_rd_max` is not monotone non-decreasing in `a_k`
for arbitrary fixed values of the other parameters. -/
theorem t_rd_max_not_monotone_a_k :
    t_rd_max epsilonXZero 30 1.5 8 0 135 1 0 0 0 0 0 1 1 = some 0 ∧
      t_rd_max epsilonXZero 30 1.5 8 1 135 1 0 0 0 0 0 1 1 =
        some (-11) ∧
      ((0 : ℝ) ≤ 1) ∧ ¬ ((0 : ℝ) ≤ -11) := by
  refine ⟨?_, ?_, by norm_num, by norm_num⟩
  · rw [t_rd_max_level1_eval]
    norm_num
  · rw [t_rd_max_level1_eval]
    have hpay : nfc 30 * 0.55 * 30 * t_ef 8 * 2 * 1 *
        Real.sin (135 * Real.pi / 180) * Real.cos (135 * Real.pi / 180) /
        1.5 = (-11 : ℝ) := by
      rw [nfc_thirty, t_ef,
        mul_assoc (1 * 0.55 * 30 * (8 / 8) * 2 * 1)
          (Real.sin (135 * Real.pi / 180))
          (Real.cos (135 * Real.pi / 180)),
        sin135_mul_cos135]
      norm_num
    rw [hpay]

/-- C8 amended: `t_rd_max` is monotone non-decreasing in `a_k` for fixed
values of the other parameters under the physical domain restrictions
`f_ck > 0`, `gamma_c > 0`, `d_k >= 0`, `0 <= theta <= 90` degrees and a
nonnegative strain from `epsilon_x` (without them, e.g. at
`theta = 135` degrees, the coefficient of `a_k` is negative and the map
is decreasing). -/
theorem t_rd_max_monotone_a_k_of_nonneg (epsilon_x : EpsilonX)
    (f_ck gamma_c d_k theta E_s As Med Ved Ned z delta_e : ℝ)
    (approx_lvl_s : ℤ) (a_k1 a_k2 : ℝ) (hak : a_k1 ≤ a_k2)
    (hf : 0 < f_ck) (hg : 0 < gamma_c) (hd : 0 ≤ d_k)
    (hth0 : 0 ≤ theta) (hth90 : theta ≤ 90)
    (heps : 0 ≤ epsilon_x E_s As Med Ved Ned z delta_e) (r1 r2 : ℝ)
    (h1 : t_rd_max epsilon_x f_ck gamma_c d_k a_k1 theta approx_lvl_s E_s
      As Med Ved Ned z delta_e = some r1)
    (h2 : t_rd_max epsilon_x f_ck gamma_c d_k a_k2 theta approx_lvl_s E_s
      As Med Ved Ned z delta_e = some r2) :
    r1 ≤ r2 := by
  rcases hks : k_epsilon_sel epsilon_x theta approx_lvl_s E_s As Med Ved
      Ned z delta_e with _ | k
  · rw [t_rd_max, hks] at h1
    exact absurd h1 (by simp)
  · rw [t_rd_max, hks, Option.map_some', Option.some.injEq] at h1 h2
    have hk0 : 0 ≤ k :=
      k_epsilon_sel_nonneg epsilon_x theta approx_lvl_s E_s As Med Ved
        Ned z delta_e heps k hks
    have hnfc : 0 ≤ nfc f_ck :=
      le_min (Real.rpow_nonneg (by positivity) _) zero_le_one
    have htef : 0 ≤ t_ef d_k := div_nonneg hd (by norm_num)
    set x := theta * Real.pi / 180 with hx
    have hx0 : 0 ≤ x := by
      have := Real.pi_pos
      positivity
    have hx2 : x ≤ Real.pi / 2 := by
      have hmul : theta * Real.pi ≤ 90 * Real.pi :=
        mul_le_mul_of_nonneg_right hth90 Real.pi_pos.le
      rw [hx]
      linarith
    have hs : 0 ≤ Real.sin x :=
      Real.sin_nonneg_of_nonneg_of_le_pi hx0
        (le_trans hx2 (by linarith [Real.pi_pos]))
    have hc : 0 ≤ Real.cos x :=
      Real.cos_nonneg_of_mem_Icc ⟨by linarith, hx2⟩
    have hA : 0 ≤ nfc f_ck * k * f_ck * t_ef d_k * 2 * Real.sin x *
        Real.cos x / gamma_c := by
      refine div_nonneg ?_ hg.le
      refine mul_nonneg (mul_nonneg (mul_nonneg (mul_nonneg
        (mul_nonneg (mul_nonneg hnfc hk0) hf.le) htef)
        (by norm_num)) hs) hc
    have hmono := mul_le_mul_of_nonneg_right hak hA
    calc r1 = a_k1 * (nfc f_ck * k * f_ck * t_ef d_k * 2 * Real.sin x *
          Real.cos x / gamma_c) := by rw [← h1]; ring
      _ ≤ a_k2 * (nfc f_ck * k * f_ck * t_ef d_k * 2 * Real.sin x *
          Real.cos x / gamma_c) := hmono
      _ = r2 := by rw [← h2]; ring

/-- Witness for the amended C8 at `a_k1 = a_k2 = 1`, level 1,
`theta = 45`, zero strain. -/
theorem t_rd_max_monotone_a_k_of_nonneg_witness :
    nfc 30 * 0.55 * 30 * t_ef 8 * 2 * 1 *
        Real.sin (45 * Real.pi / 180) * Real.cos (45 * Real.pi / 180) /
        1.5 ≤
      nfc 30 * 0.55 * 30 * t_ef 8 * 2 * 1 *
        Real.sin (45 * Real.pi / 180) * Real.cos (45 * Real.pi / 180) /
        1.5 :=
  t_rd_max_monotone_a_k_of_nonneg epsilonXZero 30 1.5 8 45 0 0 0 0 0 1 1
    1 1 1 le_rfl (by norm_num) (by norm_num) (by norm_num) (by norm_num)
    (by norm_num) (by norm_num [epsilonXZero]) _ _ rfl rfl
